import Mathlib

/-
  Verification of the tilt-fire arcade game (src/App.js).

  The simulation core is shallowly embedded: screen coordinates are rationals
  (the source uses JS floating point, but every constant and motion delta in
  the program is a small integer, so ℚ is exact here), entity sequences are
  lists, and each periodic timer callback of the source becomes a pure state
  transformer.  `Date.now()` and `Math.random()` are modelled as inputs
  carried by the corresponding events.
-/

namespace TiltGame

/-- Screen-pixel quantities; the source works in JS numbers. -/
abbrev Coord := ℚ

def PLAYER_WIDTH : Coord := 50
def PLAYER_HEIGHT : Coord := 50
def BULLET_WIDTH : Coord := 10
def BULLET_HEIGHT : Coord := 20
def BLOCK_WIDTH : Coord := 40
def BLOCK_HEIGHT : Coord := 40

/-- A projectile or falling block: the source stores `{id, x, y}` objects,
with the width/height fixed per kind by the global constants. -/
structure Entity where
  id : ℕ
  x : Coord
  y : Coord
deriving DecidableEq, Repr

/-- `isColliding(a, b, aWidth, aHeight, bWidth, bHeight)` from src/App.js:
strict axis-aligned bounding-box overlap test.  In the source the four size
arguments default to the bullet and block dimensions; every call site uses
those defaults. -/
def isColliding (a b : Entity) (aWidth aHeight bWidth bHeight : Coord) : Bool :=
  decide (a.x < b.x + bWidth) &&
  decide (a.x + aWidth > b.x) &&
  decide (a.y < b.y + bHeight) &&
  decide (a.y + aHeight > b.y)

/-- The only call pattern used by the source: bullet-sized `a` against
block-sized `b` (all size arguments left at their defaults). -/
def bulletHitsBlock (a b : Entity) : Bool :=
  isColliding a b BULLET_WIDTH BULLET_HEIGHT BLOCK_WIDTH BLOCK_HEIGHT

/-- The React component state of src/App.js (one `useState` per field). -/
structure GameState where
  playerX : Coord
  bullets : List Entity
  fallingBlocks : List Entity
  gameOver : Bool
  score : ℕ
  gameStarted : Bool
  level : ℕ
  levelTransition : Bool
  countdown : ℤ
deriving DecidableEq, Repr

/-- Initial component state (the `useState` initialisers). -/
def initState (sw : Coord) : GameState :=
  { playerX := (sw - PLAYER_WIDTH) / 2
    bullets := []
    fallingBlocks := []
    gameOver := false
    score := 0
    gameStarted := false
    level := 1
    levelTransition := false
    countdown := 10 }

/-- Guard shared by the gameplay effects: each returns early (no timer /
no listener) unless `gameStarted && !gameOver && !levelTransition`. -/
def isActive (s : GameState) : Bool :=
  s.gameStarted && !s.gameOver && !s.levelTransition

/-- Accelerometer listener: move by `x * 30` and clamp to
`[0, screenWidth - PLAYER_WIDTH]`.  When the guard fails the listener is
not subscribed, so the event leaves the state unchanged. -/
def onTilt (sw : Coord) (s : GameState) (xReading : Coord) : GameState :=
  if isActive s then
    { s with playerX := max 0 (min (sw - PLAYER_WIDTH) (s.playerX + xReading * 30)) }
  else s

/-- 50ms bullet-motion interval: every bullet moves up by 15, then bullets
with `y + 20 <= 0` are dropped (exited the top). -/
def bulletTick (s : GameState) : GameState :=
  if isActive s then
    let movedUp := s.bullets.map (fun b => { b with y := b.y - 15 })
    { s with bullets := movedUp.filter (fun b => decide (b.y + 20 > 0)) }
  else s

/-- Spawn interval (2000ms at level 1, 1200ms at level 2): append one block
with `id = Date.now()`, `x = Math.random() * (screenWidth - PLAYER_WIDTH)`,
`y = -50`.  `t` is the `Date.now()` sample and `rnd` the `Math.random()`
sample in `[0, 1)`. -/
def spawnTick (sw : Coord) (s : GameState) (t : ℕ) (rnd : Coord) : GameState :=
  if isActive s then
    let block : Entity := { id := t, x := rnd * (sw - PLAYER_WIDTH), y := -50 }
    { s with fallingBlocks := s.fallingBlocks ++ [block] }
  else s

/-- 1000ms countdown interval, running only while `levelTransition` is set:
decrement; when the new count would be `<= 0`, complete the transition
(level 2, clear both entity lists, countdown back to 10). -/
def countdownTick (s : GameState) : GameState :=
  if s.levelTransition then
    if s.countdown - 1 ≤ 0 then
      { s with level := 2
               levelTransition := false
               fallingBlocks := []
               bullets := []
               countdown := 10 }
    else { s with countdown := s.countdown - 1 }
  else s

/-- Fall speed per level: 3 at level 1, 6 otherwise. -/
def fallSpeed (level : ℕ) : Coord :=
  if level = 1 then 3 else 6

/-- `playerTopY = screenHeight - 20 - PLAYER_HEIGHT`, the fixed collision
boundary of the player (the player sits 20px above the bottom edge). -/
def playerTopY (sh : Coord) : Coord :=
  sh - 20 - PLAYER_HEIGHT

/-- One step of block motion: `y` increases by the fall speed. -/
def moveBlock (speed : Coord) (b : Entity) : Entity :=
  { b with y := b.y + speed }

/-- Body of the inner `forEach` of the collision interval: add `block.id` to
the accumulated id list and bump the counter whenever the id is not yet
present and the pair collides. -/
def hitScanBlock (bullet : Entity) (acc : List ℕ × ℕ) (block : Entity) : List ℕ × ℕ :=
  if !acc.1.contains block.id && bulletHitsBlock bullet block then
    (block.id :: acc.1, acc.2 + 1)
  else acc

/-- Inner `forEach`: one bullet against every block. -/
def hitScanBullet (blocks : List Entity) (acc : List ℕ × ℕ) (bullet : Entity) :
    List ℕ × ℕ :=
  blocks.foldl (hitScanBlock bullet) acc

/-- The nested `forEach` of the collision interval: fold over bullets, and for
each bullet over the blocks.  First component: `hitBlockIds`; second:
`blocksHit`. -/
def hitScan (bullets blocks : List Entity) : List ℕ × ℕ :=
  bullets.foldl (hitScanBullet blocks) ([], 0)

/-- Bullet-consumption predicate of `setBullets`: a bullet is removed when it
collides with some block whose id was marked hit this tick. -/
def bulletConsumed (hitIds : List ℕ) (blocks : List Entity) (bullet : Entity) : Bool :=
  blocks.any (fun block => hitIds.contains block.id && bulletHitsBlock bullet block)

/-- Block-retention predicate of the final filter: drop blocks that were hit,
drop blocks whose bottom edge reached `playerTopY`, and keep the rest only
while `y < screenHeight + 50`. -/
def blockKept (sh : Coord) (hitIds : List ℕ) (block : Entity) : Bool :=
  if hitIds.contains block.id then false
  else if decide (block.y + BLOCK_HEIGHT ≥ playerTopY sh) then false
  else decide (block.y < sh + 50)

/-- The 50ms block-motion-and-collision interval callback of src/App.js
(lines 129-211), with all the batched `set*` updates applied atomically:
  1. scan bullets against the CURRENT (pre-motion) block positions;
  2. if any block was hit: add `10 * blocksHit` to the score, possibly
     entering the level transition, and drop the consumed bullets;
  3. move every block down by the fall speed;
  4. set game-over when a surviving (un-hit) moved block has
     `y + BLOCK_HEIGHT ≥ playerTopY`;
  5. filter the moved blocks (hit, reached-bottom, off-screen). -/
def collisionTick (sh : Coord) (s : GameState) : GameState :=
  if isActive s then
    let speed := fallSpeed s.level
    let scan := hitScan s.bullets s.fallingBlocks
    let hitIds := scan.1
    let blocksHit := scan.2
    let levelUp := decide (0 < blocksHit) && decide (50 ≤ s.score + blocksHit * 10)
                     && decide (s.level = 1) && !s.levelTransition
    let newBullets :=
      if 0 < blocksHit then
        s.bullets.filter (fun bullet => !bulletConsumed hitIds s.fallingBlocks bullet)
      else s.bullets
    let moved := s.fallingBlocks.map (moveBlock speed)
    let shouldGameOver := moved.any
      (fun block => !hitIds.contains block.id &&
        decide (block.y + BLOCK_HEIGHT ≥ playerTopY sh))
    { s with
        bullets := newBullets
        fallingBlocks := moved.filter (blockKept sh hitIds)
        score := if 0 < blocksHit then s.score + blocksHit * 10 else s.score
        gameOver := if shouldGameOver then true else s.gameOver
        levelTransition := if levelUp then true else s.levelTransition
        countdown := if levelUp then 10 else s.countdown }
  else s

/-- `handleBullets`: ignored unless the game is actively playing; otherwise
append one bullet with `id = Date.now()`,
`x = playerX + PLAYER_WIDTH / 2 - BULLET_WIDTH`,
`y = screenHeight - PLAYER_HEIGHT - BULLET_HEIGHT * 2`. -/
def handleBullets (sh : Coord) (s : GameState) (t : ℕ) : GameState :=
  if !s.gameStarted || s.gameOver || s.levelTransition then s
  else
    let newBullet : Entity :=
      { id := t
        x := s.playerX + PLAYER_WIDTH / 2 - BULLET_WIDTH
        y := sh - PLAYER_HEIGHT - BULLET_HEIGHT * 2 }
    { s with bullets := s.bullets ++ [newBullet] }

/-- `resetGame`: reset every field to its initial value and start playing
(also used by the start button). -/
def resetGame (sw : Coord) (_s : GameState) : GameState :=
  { playerX := (sw - PLAYER_WIDTH) / 2
    bullets := []
    fallingBlocks := []
    gameOver := false
    score := 0
    gameStarted := true
    level := 1
    levelTransition := false
    countdown := 10 }

/-- External events driving the session: each timer firing, sensor sample or
touch becomes one event.  Timestamps (`Date.now()`) and random samples are
event payloads. -/
inductive Event where
  | tilt (delta : Coord)
  | bulletMotion
  | spawn (t : ℕ) (rnd : Coord)
  | collision
  | countdownStep
  | fire (t : ℕ)
  | reset
deriving DecidableEq, Repr

/-- One transition of the session. -/
def step (sw sh : Coord) (s : GameState) : Event → GameState
  | Event.tilt d => onTilt sw s d
  | Event.bulletMotion => bulletTick s
  | Event.spawn t r => spawnTick sw s t r
  | Event.collision => collisionTick sh s
  | Event.countdownStep => countdownTick s
  | Event.fire t => handleBullets sh s t
  | Event.reset => resetGame sw s

/-- Run a list of events from a state. -/
def run (sw sh : Coord) (s : GameState) : List Event → GameState
  | [] => s
  | e :: es => run sw sh (step sw sh s e) es

/-- States reachable from the initial component state. -/
inductive Reachable (sw sh : Coord) : GameState → Prop
  | init : Reachable sw sh (initState sw)
  | next {s : GameState} (e : Event) :
      Reachable sw sh s → Reachable sw sh (step sw sh s e)

/-! ### Properties of the hit scan -/

lemma hitScanBlock_stale (bullet block : Entity) (acc : List ℕ × ℕ)
    (h : acc.1.contains block.id = true) :
    hitScanBlock bullet acc block = acc := by
  unfold hitScanBlock
  rw [h]
  rfl

lemma hitScanBlock_miss (bullet block : Entity) (acc : List ℕ × ℕ)
    (h : bulletHitsBlock bullet block = false) :
    hitScanBlock bullet acc block = acc := by
  unfold hitScanBlock
  rw [h, Bool.and_false]
  rfl

lemma hitScanBlock_new (bullet block : Entity) (acc : List ℕ × ℕ)
    (h1 : acc.1.contains block.id = false) (h2 : bulletHitsBlock bullet block = true) :
    hitScanBlock bullet acc block = (block.id :: acc.1, acc.2 + 1) := by
  unfold hitScanBlock
  rw [h1, h2]
  rfl

lemma hitScanBullet_mem (bullet : Entity) (blocks : List Entity) :
    ∀ (acc : List ℕ × ℕ) (x : ℕ),
      x ∈ (hitScanBullet blocks acc bullet).1 ↔
        x ∈ acc.1 ∨ ∃ k ∈ blocks, x = k.id ∧ bulletHitsBlock bullet k = true := by
  induction blocks with
  | nil => intro acc x; simp [hitScanBullet]
  | cons k ks ih =>
    intro acc x
    rw [show hitScanBullet (k :: ks) acc bullet
          = hitScanBullet ks (hitScanBlock bullet acc k) bullet from rfl, ih]
    by_cases hc : acc.1.contains k.id
    · have hmem : k.id ∈ acc.1 := List.elem_iff.mp hc
      rw [hitScanBlock_stale bullet k acc hc]
      constructor
      · rintro (h | ⟨k2, hk2, hrest⟩)
        · exact Or.inl h
        · exact Or.inr ⟨k2, List.mem_cons_of_mem _ hk2, hrest⟩
      · rintro (h | ⟨k2, hk2, hrest⟩)
        · exact Or.inl h
        · rcases List.mem_cons.mp hk2 with h2 | h2
          · obtain ⟨hx, hhit⟩ := hrest
            subst h2
            refine Or.inl ?_
            rw [hx]
            exact hmem
          · exact Or.inr ⟨k2, h2, hrest⟩
    · rw [Bool.not_eq_true] at hc
      by_cases hh : bulletHitsBlock bullet k
      · rw [hitScanBlock_new bullet k acc hc hh]
        constructor
        · rintro (h | ⟨k2, hk2, hrest⟩)
          · rcases List.mem_cons.mp h with h1 | h1
            · exact Or.inr ⟨k, List.mem_cons_self k ks, h1, hh⟩
            · exact Or.inl h1
          · exact Or.inr ⟨k2, List.mem_cons_of_mem _ hk2, hrest⟩
        · rintro (h | ⟨k2, hk2, hrest⟩)
          · exact Or.inl (List.mem_cons_of_mem _ h)
          · rcases List.mem_cons.mp hk2 with h2 | h2
            · obtain ⟨hx, hhit⟩ := hrest
              subst h2
              refine Or.inl ?_
              rw [hx]
              exact List.mem_cons_self _ _
            · exact Or.inr ⟨k2, h2, hrest⟩
      · rw [Bool.not_eq_true] at hh
        rw [hitScanBlock_miss bullet k acc hh]
        constructor
        · rintro (h | ⟨k2, hk2, hrest⟩)
          · exact Or.inl h
          · exact Or.inr ⟨k2, List.mem_cons_of_mem _ hk2, hrest⟩
        · rintro (h | ⟨k2, hk2, hrest⟩)
          · exact Or.inl h
          · rcases List.mem_cons.mp hk2 with h2 | h2
            · obtain ⟨hx, hhit⟩ := hrest
              subst h2
              rw [hh] at hhit
              exact absurd hhit (by simp)
            · exact Or.inr ⟨k2, h2, hrest⟩

lemma hitScan_foldl_mem (blocks : List Entity) :
    ∀ (bullets : List Entity) (acc : List ℕ × ℕ) (x : ℕ),
      x ∈ (bullets.foldl (hitScanBullet blocks) acc).1 ↔
        x ∈ acc.1 ∨
          ∃ k ∈ blocks, x = k.id ∧ ∃ b ∈ bullets, bulletHitsBlock b k = true := by
  intro bullets
  induction bullets with
  | nil => intro acc x; simp
  | cons b bs ih =>
    intro acc x
    rw [List.foldl_cons, ih, hitScanBullet_mem]
    constructor
    · rintro ((h | ⟨k, hk, hx, hb⟩) | ⟨k, hk, hx, b2, hb2, hh⟩)
      · exact Or.inl h
      · exact Or.inr ⟨k, hk, hx, b, List.mem_cons_self b bs, hb⟩
      · exact Or.inr ⟨k, hk, hx, b2, List.mem_cons_of_mem _ hb2, hh⟩
    · rintro (h | ⟨k, hk, hx, b2, hb2, hh⟩)
      · exact Or.inl (Or.inl h)
      · rcases List.mem_cons.mp hb2 with h2 | h2
        · exact Or.inl (Or.inr ⟨k, hk, hx, h2 ▸ hh⟩)
        · exact Or.inr ⟨k, hk, hx, b2, h2, hh⟩

/-- Membership in the hit-id list: exactly the ids of blocks that collide,
at their pre-motion positions, with some current bullet. -/
lemma hitScan_mem (bullets blocks : List Entity) (x : ℕ) :
    x ∈ (hitScan bullets blocks).1 ↔
      ∃ k ∈ blocks, x = k.id ∧ ∃ b ∈ bullets, bulletHitsBlock b k = true := by
  rw [hitScan, hitScan_foldl_mem]
  simp

lemma hitScanBullet_inv (bullet : Entity) (blocks : List Entity) :
    ∀ (acc : List ℕ × ℕ), acc.1.Nodup → acc.2 = acc.1.length →
      (hitScanBullet blocks acc bullet).1.Nodup ∧
        (hitScanBullet blocks acc bullet).2 = (hitScanBullet blocks acc bullet).1.length := by
  induction blocks with
  | nil => intro acc h1 h2; exact ⟨h1, h2⟩
  | cons k ks ih =>
    intro acc h1 h2
    rw [show hitScanBullet (k :: ks) acc bullet
          = hitScanBullet ks (hitScanBlock bullet acc k) bullet from rfl]
    by_cases hc : acc.1.contains k.id
    · rw [hitScanBlock_stale bullet k acc hc]
      exact ih acc h1 h2
    · rw [Bool.not_eq_true] at hc
      by_cases hh : bulletHitsBlock bullet k
      · rw [hitScanBlock_new bullet k acc hc hh]
        apply ih
        · refine List.nodup_cons.mpr ⟨fun hmem => ?_, h1⟩
          have hcontra : acc.1.contains k.id = true := List.elem_iff.mpr hmem
          rw [hcontra] at hc
          exact Bool.noConfusion hc
        · simpa using h2
      · rw [Bool.not_eq_true] at hh
        rw [hitScanBlock_miss bullet k acc hh]
        exact ih acc h1 h2

/-- The hit-id list is duplicate-free, and `blocksHit` counts its entries. -/
lemma hitScan_inv (bullets blocks : List Entity) :
    (hitScan bullets blocks).1.Nodup ∧
      (hitScan bullets blocks).2 = (hitScan bullets blocks).1.length := by
  rw [hitScan]
  have key : ∀ (bs : List Entity) (acc : List ℕ × ℕ), acc.1.Nodup →
      acc.2 = acc.1.length →
      (bs.foldl (hitScanBullet blocks) acc).1.Nodup ∧
        (bs.foldl (hitScanBullet blocks) acc).2
          = (bs.foldl (hitScanBullet blocks) acc).1.length := by
    intro bs
    induction bs with
    | nil => intro acc h1 h2; exact ⟨h1, h2⟩
    | cons b rest ih =>
      intro acc h1 h2
      rw [List.foldl_cons]
      obtain ⟨g1, g2⟩ := hitScanBullet_inv b blocks acc h1 h2
      exact ih _ g1 g2
  exact key bullets ([], 0) List.nodup_nil rfl

/-- With duplicate-free block ids, `blocksHit` is the number of blocks that
collide (pre-motion) with at least one current bullet. -/
lemma hitScan_count (bullets blocks : List Entity)
    (hnd : (blocks.map Entity.id).Nodup) :
    (hitScan bullets blocks).2 =
      (blocks.filter (fun k => bullets.any (fun b => bulletHitsBlock b k))).length := by
  obtain ⟨hnod, hlen⟩ := hitScan_inv bullets blocks
  rw [hlen]
  have hsubl :
      ((blocks.filter (fun k => bullets.any (fun b => bulletHitsBlock b k))).map
        Entity.id).Sublist (blocks.map Entity.id) :=
    List.Sublist.map Entity.id (List.filter_sublist blocks)
  have hRnodup :
      ((blocks.filter (fun k => bullets.any (fun b => bulletHitsBlock b k))).map
        Entity.id).Nodup :=
    hsubl.nodup hnd
  have hset : (hitScan bullets blocks).1.toFinset =
      ((blocks.filter (fun k => bullets.any (fun b => bulletHitsBlock b k))).map
        Entity.id).toFinset := by
    ext x
    simp only [List.mem_toFinset, hitScan_mem, List.mem_map, List.mem_filter,
      List.any_eq_true]
    constructor
    · rintro ⟨k, hk, hx, b, hb, hh⟩
      exact ⟨k, ⟨hk, b, hb, hh⟩, hx.symm⟩
    · rintro ⟨k, ⟨hk, b, hb, hh⟩, hx⟩
      exact ⟨k, hk, hx.symm, b, hb, hh⟩
  have h1 := List.toFinset_card_of_nodup hnod
  have h2 := List.toFinset_card_of_nodup hRnodup
  rw [← h1, hset, h2, List.length_map]

/-- With duplicate-free block ids, a block id is in the hit list exactly when
some current bullet collides with that block (pre-motion). -/
lemma hitScan_contains (bullets blocks : List Entity)
    (hnd : (blocks.map Entity.id).Nodup) {k : Entity} (hk : k ∈ blocks) :
    (hitScan bullets blocks).1.contains k.id = true ↔
      ∃ b ∈ bullets, bulletHitsBlock b k = true := by
  rw [List.elem_iff, hitScan_mem]
  constructor
  · rintro ⟨k2, hk2, hid, b, hb, hh⟩
    have hkk : k2 = k := List.inj_on_of_nodup_map hnd hk2 hk hid.symm
    subst hkk
    exact ⟨b, hb, hh⟩
  · rintro ⟨b, hb, hh⟩
    exact ⟨k, hk, rfl, b, hb, hh⟩

/-- A colliding pair forces a strictly positive hit count. -/
lemma hitScan_pos (bullets blocks : List Entity) {k b : Entity}
    (hk : k ∈ blocks) (hb : b ∈ bullets) (hh : bulletHitsBlock b k = true) :
    0 < (hitScan bullets blocks).2 := by
  obtain ⟨_, hlen⟩ := hitScan_inv bullets blocks
  rw [hlen]
  have hmem : k.id ∈ (hitScan bullets blocks).1 :=
    (hitScan_mem bullets blocks k.id).mpr ⟨k, hk, rfl, b, hb, hh⟩
  exact List.length_pos.mpr (List.ne_nil_of_mem hmem)

/-! ### Guard-unfolding equations for the tick functions -/

lemma isActive_parts {s : GameState} (h : isActive s = true) :
    s.gameStarted = true ∧ s.gameOver = false ∧ s.levelTransition = false := by
  unfold isActive at h
  simp only [Bool.and_eq_true, Bool.not_eq_true'] at h
  exact ⟨h.1.1, h.1.2, h.2⟩

lemma onTilt_active {s : GameState} (sw d : Coord) (hact : isActive s = true) :
    onTilt sw s d =
      { s with playerX := max 0 (min (sw - PLAYER_WIDTH) (s.playerX + d * 30)) } := by
  unfold onTilt
  rw [if_pos hact]

lemma onTilt_inactive {s : GameState} (sw d : Coord) (hact : isActive s = false) :
    onTilt sw s d = s := by
  unfold onTilt
  rw [if_neg (by simp [hact])]

lemma bulletTick_inactive {s : GameState} (hact : isActive s = false) :
    bulletTick s = s := by
  unfold bulletTick
  rw [if_neg (by simp [hact])]

lemma spawnTick_inactive {s : GameState} (sw : Coord) (t : ℕ) (rnd : Coord)
    (hact : isActive s = false) :
    spawnTick sw s t rnd = s := by
  unfold spawnTick
  rw [if_neg (by simp [hact])]

lemma collisionTick_active {s : GameState} (sh : Coord) (hact : isActive s = true) :
    collisionTick sh s =
      { s with
          bullets :=
            if 0 < (hitScan s.bullets s.fallingBlocks).2 then
              s.bullets.filter (fun bullet =>
                !bulletConsumed (hitScan s.bullets s.fallingBlocks).1
                  s.fallingBlocks bullet)
            else s.bullets
          fallingBlocks :=
            (s.fallingBlocks.map (moveBlock (fallSpeed s.level))).filter
              (blockKept sh (hitScan s.bullets s.fallingBlocks).1)
          score :=
            if 0 < (hitScan s.bullets s.fallingBlocks).2 then
              s.score + (hitScan s.bullets s.fallingBlocks).2 * 10
            else s.score
          gameOver :=
            if (s.fallingBlocks.map (moveBlock (fallSpeed s.level))).any
                (fun block => !(hitScan s.bullets s.fallingBlocks).1.contains block.id &&
                  decide (block.y + BLOCK_HEIGHT ≥ playerTopY sh)) then
              true
            else s.gameOver
          levelTransition :=
            if decide (0 < (hitScan s.bullets s.fallingBlocks).2) &&
                decide (50 ≤ s.score + (hitScan s.bullets s.fallingBlocks).2 * 10) &&
                decide (s.level = 1) && !s.levelTransition then
              true
            else s.levelTransition
          countdown :=
            if decide (0 < (hitScan s.bullets s.fallingBlocks).2) &&
                decide (50 ≤ s.score + (hitScan s.bullets s.fallingBlocks).2 * 10) &&
                decide (s.level = 1) && !s.levelTransition then
              10
            else s.countdown } := by
  unfold collisionTick
  rw [if_pos hact]

lemma collisionTick_inactive {s : GameState} (sh : Coord) (hact : isActive s = false) :
    collisionTick sh s = s := by
  unfold collisionTick
  rw [if_neg (by simp [hact])]

lemma handleBullets_active {s : GameState} (sh : Coord) (t : ℕ)
    (hact : isActive s = true) :
    handleBullets sh s t =
      { s with bullets :=
          s.bullets ++ [{ id := t
                          x := s.playerX + PLAYER_WIDTH / 2 - BULLET_WIDTH
                          y := sh - PLAYER_HEIGHT - BULLET_HEIGHT * 2 }] } := by
  obtain ⟨h1, h2, h3⟩ := isActive_parts hact
  unfold handleBullets
  rw [if_neg (by simp [h1, h2, h3])]

lemma handleBullets_inactive {s : GameState} (sh : Coord) (t : ℕ)
    (hact : isActive s = false) :
    handleBullets sh s t = s := by
  have hguard : (!s.gameStarted || s.gameOver || s.levelTransition) = true := by
    unfold isActive at hact
    cases hg : s.gameStarted <;> cases ho : s.gameOver <;>
      cases ht : s.levelTransition <;> simp_all
  unfold handleBullets
  rw [if_pos hguard]

/-! ### Concrete states used by counterexamples and witnesses -/

/-- A minimal mid-game state: playing, player at x = 100, no entities. -/
def demoPlaying : GameState :=
  { playerX := 100
    bullets := []
    fallingBlocks := []
    gameOver := false
    score := 0
    gameStarted := true
    level := 1
    levelTransition := false
    countdown := 10 }

/-! ### C5: the AABB intersection test -/

/-- C5: `isColliding a b ...` returns true iff
`a.x < b.x + bw ∧ a.x + aw > b.x ∧ a.y < b.y + bh ∧ a.y + ah > b.y`; and
rectangles that merely touch (equality on either axis) do not collide. -/
theorem C5_isColliding_strict (a b : Entity) (aw ah bw bh : Coord) :
    (isColliding a b aw ah bw bh = true ↔
      (a.x < b.x + bw ∧ a.x + aw > b.x ∧ a.y < b.y + bh ∧ a.y + ah > b.y))
    ∧ (a.x + aw = b.x → isColliding a b aw ah bw bh = false)
    ∧ (a.x = b.x + bw → isColliding a b aw ah bw bh = false)
    ∧ (a.y + ah = b.y → isColliding a b aw ah bw bh = false)
    ∧ (a.y = b.y + bh → isColliding a b aw ah bw bh = false) := by
  refine ⟨?_, ?_, ?_, ?_, ?_⟩
  · simp [isColliding, and_assoc]
  · intro h
    simp [isColliding, h]
  · intro h
    simp [isColliding, h]
  · intro h
    simp [isColliding, h]
  · intro h
    simp [isColliding, h]

/-- Witness for C5: the four touching-edge cases at concrete rectangles
(bullet-sized vs block-sized). -/
theorem C5_isColliding_strict_witness :
    isColliding ⟨0, 0, 0⟩ ⟨1, 10, 0⟩ 10 20 40 40 = false
    ∧ isColliding ⟨0, 0, 0⟩ ⟨2, -40, 0⟩ 10 20 40 40 = false
    ∧ isColliding ⟨0, 0, 0⟩ ⟨3, 0, 20⟩ 10 20 40 40 = false
    ∧ isColliding ⟨0, 0, 0⟩ ⟨4, 0, -40⟩ 10 20 40 40 = false := by
  refine ⟨?_, ?_, ?_, ?_⟩
  · exact (C5_isColliding_strict ⟨0, 0, 0⟩ ⟨1, 10, 0⟩ 10 20 40 40).2.1 (by norm_num)
  · exact (C5_isColliding_strict ⟨0, 0, 0⟩ ⟨2, -40, 0⟩ 10 20 40 40).2.2.1 (by norm_num)
  · exact (C5_isColliding_strict ⟨0, 0, 0⟩ ⟨3, 0, 20⟩ 10 20 40 40).2.2.2.1 (by norm_num)
  · exact (C5_isColliding_strict ⟨0, 0, 0⟩ ⟨4, 0, -40⟩ 10 20 40 40).2.2.2.2 (by norm_num)

/-! ### C8: reset returns the exact initial data -/

/-- C8: performing the reset/restart action from any state restores the
initial data: score 0, level 1, no entities, countdown 10, no transition,
game-over cleared, player centered (the whole state equals the initial state
with `gameStarted := true`). -/
theorem C8_reset_restores (sw sh : Coord) (s : GameState) :
    (step sw sh s Event.reset).score = 0
    ∧ (step sw sh s Event.reset).level = 1
    ∧ (step sw sh s Event.reset).bullets = []
    ∧ (step sw sh s Event.reset).fallingBlocks = []
    ∧ (step sw sh s Event.reset).countdown = 10
    ∧ (step sw sh s Event.reset).levelTransition = false
    ∧ (step sw sh s Event.reset).gameOver = false
    ∧ (step sw sh s Event.reset).playerX = (sw - PLAYER_WIDTH) / 2
    ∧ step sw sh s Event.reset = { initState sw with gameStarted := true } :=
  ⟨rfl, rfl, rfl, rfl, rfl, rfl, rfl, rfl, rfl⟩

/-! ### C9: tilt input keeps the player on screen -/

/-- C9: for every tilt delta, of any magnitude, the player x after the input
lies in `[0, screenWidth - PLAYER_WIDTH]` (assuming the screen is at least as
wide as the player). -/
theorem C9_tilt_clamp (sw sh : Coord) (s : GameState) (d : Coord)
    (hw : PLAYER_WIDTH ≤ sw) (hact : isActive s = true) :
    0 ≤ (step sw sh s (Event.tilt d)).playerX
    ∧ (step sw sh s (Event.tilt d)).playerX ≤ sw - PLAYER_WIDTH := by
  have hstep : step sw sh s (Event.tilt d) = onTilt sw s d := rfl
  rw [hstep, onTilt_active sw d hact]
  refine ⟨le_max_left 0 _, max_le ?_ (min_le_left _ _)⟩
  linarith

/-- Witness for C9: an extreme tilt of 10⁶ on a 400-wide screen. -/
theorem C9_tilt_clamp_witness :
    0 ≤ (step 400 800 demoPlaying (Event.tilt 1000000)).playerX
    ∧ (step 400 800 demoPlaying (Event.tilt 1000000)).playerX ≤ 400 - PLAYER_WIDTH :=
  C9_tilt_clamp 400 800 demoPlaying 1000000 (by norm_num [PLAYER_WIDTH]) (by decide)

/-! ### C7: the fire action -/

/-- C7 (amended): fire is a no-op outside Playing; when accepted it appends
exactly one bullet at `x = playerX + PLAYER_WIDTH / 2 - BULLET_WIDTH` (which
is 5px LEFT of exact centering on the player) and
`y = screenHeight - PLAYER_HEIGHT - 2 * BULLET_HEIGHT`, whose bottom edge
touches the player top boundary. -/
theorem C7_fire_spawn (sw sh : Coord) (s : GameState) (t : ℕ) :
    (isActive s = false → step sw sh s (Event.fire t) = s)
    ∧ (isActive s = true →
        (step sw sh s (Event.fire t)).bullets =
          s.bullets ++ [{ id := t
                          x := s.playerX + PLAYER_WIDTH / 2 - BULLET_WIDTH
                          y := sh - PLAYER_HEIGHT - BULLET_HEIGHT * 2 }]
        ∧ (sh - PLAYER_HEIGHT - BULLET_HEIGHT * 2) + BULLET_HEIGHT = playerTopY sh
        ∧ (s.playerX + PLAYER_WIDTH / 2 - BULLET_WIDTH) + BULLET_WIDTH / 2
            = s.playerX + PLAYER_WIDTH / 2 - 5) := by
    constructor
    · intro hact
      exact handleBullets_inactive sh t hact
    · intro hact
      refine ⟨?_, ?_, ?_⟩
      · rw [show step sw sh s (Event.fire t) = handleBullets sh s t from rfl,
          handleBullets_active sh t hact]
      · unfold playerTopY PLAYER_HEIGHT BULLET_HEIGHT
        ring
      · unfold PLAYER_WIDTH BULLET_WIDTH
        ring

/-- Witness for C7: firing in the playing state appends the off-center
bullet; firing after game over changes nothing. -/
theorem C7_fire_spawn_witness :
    (step 400 800 { demoPlaying with gameOver := true } (Event.fire 1)
        = { demoPlaying with gameOver := true })
    ∧ ((step 400 800 demoPlaying (Event.fire 1)).bullets =
          demoPlaying.bullets ++ [{ id := 1
                                    x := demoPlaying.playerX + PLAYER_WIDTH / 2 - BULLET_WIDTH
                                    y := 800 - PLAYER_HEIGHT - BULLET_HEIGHT * 2 }]
        ∧ ((800 : Coord) - PLAYER_HEIGHT - BULLET_HEIGHT * 2) + BULLET_HEIGHT = playerTopY 800
        ∧ (demoPlaying.playerX + PLAYER_WIDTH / 2 - BULLET_WIDTH) + BULLET_WIDTH / 2
            = demoPlaying.playerX + PLAYER_WIDTH / 2 - 5) :=
  ⟨(C7_fire_spawn 400 800 { demoPlaying with gameOver := true } 1).1 (by decide),
   (C7_fire_spawn 400 800 demoPlaying 1).2 (by decide)⟩

/-- Counterexample for C7 as stated: with the player at x = 100 the appended
bullet sits at x = 115, so its horizontal center 120 is neither the player
center 125 nor the player x 100 — the projectile is NOT centered on the
player. -/
theorem C7_fire_spawn_counterexample :
    (step 400 800 demoPlaying (Event.fire 1)).bullets = [{ id := 1, x := 115, y := 710 }]
    ∧ ¬((115 : Coord) + BULLET_WIDTH / 2 = demoPlaying.playerX + PLAYER_WIDTH / 2)
    ∧ ¬((115 : Coord) + BULLET_WIDTH / 2 = demoPlaying.playerX) := by
  refine ⟨?_, ?_, ?_⟩
  · rw [show step 400 800 demoPlaying (Event.fire 1) = handleBullets 800 demoPlaying 1
        from rfl, handleBullets_active 800 1 (by decide)]
    simp only [demoPlaying, List.nil_append, List.cons.injEq, Entity.mk.injEq]
    norm_num [PLAYER_WIDTH, BULLET_WIDTH, PLAYER_HEIGHT, BULLET_HEIGHT]
  · norm_num [demoPlaying, BULLET_WIDTH, PLAYER_WIDTH]
  · norm_num [demoPlaying, BULLET_WIDTH]

/-! ### Field equations of the collision tick, and hit-set helpers -/

lemma moveBlock_id (speed : Coord) (b : Entity) : (moveBlock speed b).id = b.id := rfl

lemma collisionTick_score {s : GameState} (sh : Coord) (hact : isActive s = true) :
    (collisionTick sh s).score =
      if 0 < (hitScan s.bullets s.fallingBlocks).2 then
        s.score + (hitScan s.bullets s.fallingBlocks).2 * 10
      else s.score := by
  rw [collisionTick_active sh hact]

lemma collisionTick_bullets {s : GameState} (sh : Coord) (hact : isActive s = true) :
    (collisionTick sh s).bullets =
      if 0 < (hitScan s.bullets s.fallingBlocks).2 then
        s.bullets.filter (fun bullet =>
          !bulletConsumed (hitScan s.bullets s.fallingBlocks).1 s.fallingBlocks bullet)
      else s.bullets := by
  rw [collisionTick_active sh hact]

lemma collisionTick_blocks {s : GameState} (sh : Coord) (hact : isActive s = true) :
    (collisionTick sh s).fallingBlocks =
      (s.fallingBlocks.map (moveBlock (fallSpeed s.level))).filter
        (blockKept sh (hitScan s.bullets s.fallingBlocks).1) := by
  rw [collisionTick_active sh hact]

lemma collisionTick_gameOver {s : GameState} (sh : Coord) (hact : isActive s = true) :
    (collisionTick sh s).gameOver =
      if (s.fallingBlocks.map (moveBlock (fallSpeed s.level))).any
          (fun block => !(hitScan s.bullets s.fallingBlocks).1.contains block.id &&
            decide (block.y + BLOCK_HEIGHT ≥ playerTopY sh)) then
        true
      else s.gameOver := by
  rw [collisionTick_active sh hact]

lemma collisionTick_levelTransition {s : GameState} (sh : Coord)
    (hact : isActive s = true) :
    (collisionTick sh s).levelTransition =
      if decide (0 < (hitScan s.bullets s.fallingBlocks).2) &&
          decide (50 ≤ s.score + (hitScan s.bullets s.fallingBlocks).2 * 10) &&
          decide (s.level = 1) && !s.levelTransition then
        true
      else s.levelTransition := by
  rw [collisionTick_active sh hact]

lemma collisionTick_countdown {s : GameState} (sh : Coord) (hact : isActive s = true) :
    (collisionTick sh s).countdown =
      if decide (0 < (hitScan s.bullets s.fallingBlocks).2) &&
          decide (50 ≤ s.score + (hitScan s.bullets s.fallingBlocks).2 * 10) &&
          decide (s.level = 1) && !s.levelTransition then
        10
      else s.countdown := by
  rw [collisionTick_active sh hact]

lemma collisionTick_level {s : GameState} (sh : Coord) :
    (collisionTick sh s).level = s.level := by
  by_cases hact : isActive s
  · rw [collisionTick_active sh hact]
  · rw [collisionTick_inactive sh (by simpa using hact)]

lemma hitScan_not_contains (bullets blocks : List Entity)
    (hnd : (blocks.map Entity.id).Nodup) {k : Entity} (hk : k ∈ blocks) :
    (hitScan bullets blocks).1.contains k.id = false ↔
      ∀ b ∈ bullets, bulletHitsBlock b k = false := by
  constructor
  · intro h b hb
    by_contra hcon
    rw [Bool.not_eq_false] at hcon
    rw [(hitScan_contains bullets blocks hnd hk).mpr ⟨b, hb, hcon⟩] at h
    exact Bool.noConfusion h
  · intro h
    by_contra hcon
    rw [Bool.not_eq_false] at hcon
    obtain ⟨b, hb, hh⟩ := (hitScan_contains bullets blocks hnd hk).mp hcon
    rw [h b hb] at hh
    exact Bool.noConfusion hh

/-! ### C2: scoring and bullet consumption -/

/-- C2: on a collision tick the score grows by exactly `10 ×` the number of
distinct blocks hit (each block counted once however many bullets overlap
it), every bullet overlapping a hit block is removed, and bullets touching
no block survive. -/
theorem C2_score_bullets (sh : Coord) (s : GameState) (hact : isActive s = true)
    (hnd : (s.fallingBlocks.map Entity.id).Nodup) :
    (collisionTick sh s).score = s.score +
        10 * (s.fallingBlocks.filter
          (fun k => s.bullets.any (fun b => bulletHitsBlock b k))).length
    ∧ (∀ b ∈ s.bullets,
        (∃ k ∈ s.fallingBlocks,
          (∃ b2 ∈ s.bullets, bulletHitsBlock b2 k = true) ∧ bulletHitsBlock b k = true) →
        b ∉ (collisionTick sh s).bullets)
    ∧ (∀ b ∈ s.bullets,
        (∀ k ∈ s.fallingBlocks, bulletHitsBlock b k = false) →
        b ∈ (collisionTick sh s).bullets) := by
  refine ⟨?_, ?_, ?_⟩
  · rw [collisionTick_score sh hact, hitScan_count s.bullets s.fallingBlocks hnd]
    by_cases h : 0 < (s.fallingBlocks.filter
        (fun k => s.bullets.any (fun b => bulletHitsBlock b k))).length
    · rw [if_pos h, Nat.mul_comm]
    · rw [if_neg h]
      omega
  · rintro b hb ⟨k, hk, ⟨b2, hb2, hh2⟩, hbk⟩ hmem
    rw [collisionTick_bullets sh hact,
      if_pos (hitScan_pos s.bullets s.fallingBlocks hk hb2 hh2)] at hmem
    have hpred := (List.mem_filter.mp hmem).2
    have hcons : bulletConsumed (hitScan s.bullets s.fallingBlocks).1
        s.fallingBlocks b = true := by
      unfold bulletConsumed
      rw [List.any_eq_true]
      refine ⟨k, hk, ?_⟩
      rw [Bool.and_eq_true]
      exact ⟨(hitScan_contains s.bullets s.fallingBlocks hnd hk).mpr ⟨b2, hb2, hh2⟩, hbk⟩
    rw [hcons] at hpred
    exact Bool.noConfusion hpred
  · intro b hb hnone
    rw [collisionTick_bullets sh hact]
    by_cases hp : 0 < (hitScan s.bullets s.fallingBlocks).2
    · rw [if_pos hp]
      refine List.mem_filter.mpr ⟨hb, ?_⟩
      have hcons : bulletConsumed (hitScan s.bullets s.fallingBlocks).1
          s.fallingBlocks b = false := by
        unfold bulletConsumed
        rw [List.any_eq_false]
        intro k hk
        rw [Bool.and_eq_true]
        rintro ⟨-, hh⟩
        rw [hnone k hk] at hh
        exact Bool.noConfusion hh
      rw [hcons]
      rfl
    · rw [if_neg hp]
      exact hb

/-- A concrete hit scenario: one bullet overlapping the single block. -/
def demoHit : GameState :=
  { playerX := 175
    bullets := [⟨1, 0, 100⟩]
    fallingBlocks := [⟨2, 0, 90⟩]
    gameOver := false
    score := 0
    gameStarted := true
    level := 1
    levelTransition := false
    countdown := 10 }

/-- Witness for C2 at the concrete hit scenario. -/
theorem C2_score_bullets_witness :
    (collisionTick 800 demoHit).score = demoHit.score +
        10 * (demoHit.fallingBlocks.filter
          (fun k => demoHit.bullets.any (fun b => bulletHitsBlock b k))).length
    ∧ (∀ b ∈ demoHit.bullets,
        (∃ k ∈ demoHit.fallingBlocks,
          (∃ b2 ∈ demoHit.bullets, bulletHitsBlock b2 k = true) ∧
            bulletHitsBlock b k = true) →
        b ∉ (collisionTick 800 demoHit).bullets)
    ∧ (∀ b ∈ demoHit.bullets,
        (∀ k ∈ demoHit.fallingBlocks, bulletHitsBlock b k = false) →
        b ∈ (collisionTick 800 demoHit).bullets) :=
  C2_score_bullets 800 demoHit (by decide) (by decide)

/-! ### C1: game-over and block removal -/

/-- C1: on a collision tick in Playing state, game-over is set exactly when
some block that was not hit this tick has, at its post-motion position,
bottom edge at or below `playerTopY`; and every block that was hit or whose
(post-motion) bottom edge reached `playerTopY` is removed, whether or not
game-over was triggered by another block. -/
theorem C1_gameover_removal (sh : Coord) (s : GameState) (hact : isActive s = true)
    (hnd : (s.fallingBlocks.map Entity.id).Nodup) :
    ((collisionTick sh s).gameOver = true ↔
      ∃ k ∈ s.fallingBlocks,
        (∀ b ∈ s.bullets, bulletHitsBlock b k = false) ∧
        playerTopY sh ≤ (moveBlock (fallSpeed s.level) k).y + BLOCK_HEIGHT)
    ∧ (∀ k ∈ s.fallingBlocks,
        ((∃ b ∈ s.bullets, bulletHitsBlock b k = true) ∨
          playerTopY sh ≤ (moveBlock (fallSpeed s.level) k).y + BLOCK_HEIGHT) →
        moveBlock (fallSpeed s.level) k ∉ (collisionTick sh s).fallingBlocks) := by
  have hiff : (s.fallingBlocks.map (moveBlock (fallSpeed s.level))).any
      (fun block => !(hitScan s.bullets s.fallingBlocks).1.contains block.id &&
        decide (block.y + BLOCK_HEIGHT ≥ playerTopY sh)) = true ↔
      ∃ k ∈ s.fallingBlocks,
        (∀ b ∈ s.bullets, bulletHitsBlock b k = false) ∧
        playerTopY sh ≤ (moveBlock (fallSpeed s.level) k).y + BLOCK_HEIGHT := by
    rw [List.any_eq_true]
    constructor
    · rintro ⟨m, hm, hpred⟩
      obtain ⟨k, hk, rfl⟩ := List.mem_map.mp hm
      rw [Bool.and_eq_true] at hpred
      obtain ⟨hnc, hge⟩ := hpred
      rw [Bool.not_eq_true'] at hnc
      refine ⟨k, hk, (hitScan_not_contains _ _ hnd hk).mp hnc, ?_⟩
      exact of_decide_eq_true hge
    · rintro ⟨k, hk, hnohit, hge⟩
      refine ⟨moveBlock (fallSpeed s.level) k, List.mem_map.mpr ⟨k, hk, rfl⟩, ?_⟩
      rw [Bool.and_eq_true]
      refine ⟨?_, decide_eq_true hge⟩
      rw [Bool.not_eq_true']
      exact (hitScan_not_contains _ _ hnd hk).mpr hnohit
  constructor
  · rw [collisionTick_gameOver sh hact, (isActive_parts hact).2.1]
    by_cases hany : (s.fallingBlocks.map (moveBlock (fallSpeed s.level))).any
        (fun block => !(hitScan s.bullets s.fallingBlocks).1.contains block.id &&
          decide (block.y + BLOCK_HEIGHT ≥ playerTopY sh)) = true
    · rw [if_pos hany]
      exact ⟨fun _ => hiff.mp hany, fun _ => rfl⟩
    · rw [if_neg hany]
      exact ⟨fun h => Bool.noConfusion h, fun hex => absurd (hiff.mpr hex) hany⟩
  · intro k hk hdisj hmem
    rw [collisionTick_blocks sh hact] at hmem
    have hpred := (List.mem_filter.mp hmem).2
    unfold blockKept at hpred
    rcases hdisj with ⟨b, hb, hh⟩ | hbot
    · have hcont : (hitScan s.bullets s.fallingBlocks).1.contains
          (moveBlock (fallSpeed s.level) k).id = true :=
        (hitScan_contains _ _ hnd hk).mpr ⟨b, hb, hh⟩
      rw [if_pos hcont] at hpred
      exact Bool.noConfusion hpred
    · by_cases hcont : (hitScan s.bullets s.fallingBlocks).1.contains
          (moveBlock (fallSpeed s.level) k).id = true
      · rw [if_pos hcont] at hpred
        exact Bool.noConfusion hpred
      · rw [if_neg hcont, if_pos (decide_eq_true hbot)] at hpred
        exact Bool.noConfusion hpred

/-- A concrete scenario: a single unhit block one tick above the player
boundary. -/
def demoBottom : GameState :=
  { playerX := 175
    bullets := []
    fallingBlocks := [⟨2, 0, 690⟩]
    gameOver := false
    score := 0
    gameStarted := true
    level := 1
    levelTransition := false
    countdown := 10 }

/-- Witness for C1 at the concrete bottom-reaching scenario. -/
theorem C1_gameover_removal_witness :
    ((collisionTick 800 demoBottom).gameOver = true ↔
      ∃ k ∈ demoBottom.fallingBlocks,
        (∀ b ∈ demoBottom.bullets, bulletHitsBlock b k = false) ∧
        playerTopY 800 ≤ (moveBlock (fallSpeed demoBottom.level) k).y + BLOCK_HEIGHT)
    ∧ (∀ k ∈ demoBottom.fallingBlocks,
        ((∃ b ∈ demoBottom.bullets, bulletHitsBlock b k = true) ∨
          playerTopY 800 ≤ (moveBlock (fallSpeed demoBottom.level) k).y + BLOCK_HEIGHT) →
        moveBlock (fallSpeed demoBottom.level) k ∉ (collisionTick 800 demoBottom).fallingBlocks) :=
  C1_gameover_removal 800 demoBottom (by decide) (by decide)

/-! ### C3: collision detection runs on pre-motion block positions -/

lemma bulletHitsBlock_iff (a b : Entity) :
    bulletHitsBlock a b = true ↔
      (a.x < b.x + 40 ∧ b.x < a.x + 10 ∧ a.y < b.y + 40 ∧ b.y < a.y + 20) := by
  simp [bulletHitsBlock, isColliding, BULLET_WIDTH, BULLET_HEIGHT, BLOCK_WIDTH,
    BLOCK_HEIGHT, and_assoc]

/-- C3 (amended): the hit set of a collision tick is decided by the
PRE-motion block positions: a block id is marked hit iff a current bullet
overlaps the block before this tick's downward motion, and a block no bullet
overlaps pre-motion survives the tick (at its moved position) whenever it has
not reached the player boundary or left the screen — even if a bullet
overlaps its post-motion position. -/
theorem C3_premotion_hits (sh : Coord) (s : GameState) (hact : isActive s = true)
    (hnd : (s.fallingBlocks.map Entity.id).Nodup) :
    ∀ k ∈ s.fallingBlocks,
      ((hitScan s.bullets s.fallingBlocks).1.contains k.id = true ↔
        ∃ b ∈ s.bullets, bulletHitsBlock b k = true)
      ∧ ((∀ b ∈ s.bullets, bulletHitsBlock b k = false) →
          (moveBlock (fallSpeed s.level) k).y + BLOCK_HEIGHT < playerTopY sh →
          (moveBlock (fallSpeed s.level) k).y < sh + 50 →
          moveBlock (fallSpeed s.level) k ∈ (collisionTick sh s).fallingBlocks) := by
  intro k hk
  refine ⟨hitScan_contains _ _ hnd hk, ?_⟩
  intro hnohit hup hon
  rw [collisionTick_blocks sh hact]
  refine List.mem_filter.mpr ⟨List.mem_map.mpr ⟨k, hk, rfl⟩, ?_⟩
  have hcf : (hitScan s.bullets s.fallingBlocks).1.contains
      (moveBlock (fallSpeed s.level) k).id = false :=
    (hitScan_not_contains _ _ hnd hk).mpr hnohit
  unfold blockKept
  rw [if_neg (by rw [hcf]; exact Bool.noConfusion),
    if_neg (fun h => absurd (of_decide_eq_true h) (not_le.mpr hup))]
  exact decide_eq_true hon

/-- The concrete state refuting post-motion collision detection: the bullet
at y = 100 touches the block at y = 60 only after the block moves to y = 63. -/
def preMotionDemo : GameState :=
  { playerX := 175
    bullets := [⟨1, 0, 100⟩]
    fallingBlocks := [⟨2, 0, 60⟩]
    gameOver := false
    score := 0
    gameStarted := true
    level := 1
    levelTransition := false
    countdown := 10 }

/-- Witness for C3 at the pre-motion scenario, instantiated at its block. -/
theorem C3_premotion_hits_witness :
    ((hitScan preMotionDemo.bullets preMotionDemo.fallingBlocks).1.contains
        (Entity.mk 2 0 60).id = true ↔
      ∃ b ∈ preMotionDemo.bullets, bulletHitsBlock b (Entity.mk 2 0 60) = true)
    ∧ ((∀ b ∈ preMotionDemo.bullets, bulletHitsBlock b (Entity.mk 2 0 60) = false) →
        (moveBlock (fallSpeed preMotionDemo.level) (Entity.mk 2 0 60)).y + BLOCK_HEIGHT
            < playerTopY 800 →
        (moveBlock (fallSpeed preMotionDemo.level) (Entity.mk 2 0 60)).y < 800 + 50 →
        moveBlock (fallSpeed preMotionDemo.level) (Entity.mk 2 0 60)
          ∈ (collisionTick 800 preMotionDemo).fallingBlocks) :=
  C3_premotion_hits 800 preMotionDemo (by decide) (by decide) (Entity.mk 2 0 60)
    (List.mem_cons_self _ _)

/-- Counterexample to C3 as stated: the bullet overlaps the block's
post-motion position (and not its pre-motion position), yet the tick scores
nothing, consumes no bullet, and keeps the block — so the intersection tests
are NOT evaluated against post-motion positions. -/
theorem C3_premotion_hits_counterexample :
    bulletHitsBlock ⟨1, 0, 100⟩ (moveBlock (fallSpeed 1) ⟨2, 0, 60⟩) = true
    ∧ bulletHitsBlock ⟨1, 0, 100⟩ ⟨2, 0, 60⟩ = false
    ∧ (collisionTick 800 preMotionDemo).score = preMotionDemo.score
    ∧ (collisionTick 800 preMotionDemo).bullets = preMotionDemo.bullets
    ∧ (collisionTick 800 preMotionDemo).fallingBlocks
        = [moveBlock (fallSpeed preMotionDemo.level) ⟨2, 0, 60⟩] := by
  have h1 : bulletHitsBlock ⟨1, 0, 100⟩ ⟨2, 0, 60⟩ = false := by
    rw [← Bool.not_eq_true, bulletHitsBlock_iff]
    norm_num
  have hpost : bulletHitsBlock ⟨1, 0, 100⟩ (moveBlock (fallSpeed 1) ⟨2, 0, 60⟩) = true := by
    rw [bulletHitsBlock_iff]
    norm_num [moveBlock, fallSpeed]
  have hscan : hitScan preMotionDemo.bullets preMotionDemo.fallingBlocks = ([], 0) := by
    rw [show hitScan preMotionDemo.bullets preMotionDemo.fallingBlocks
          = hitScanBlock ⟨1, 0, 100⟩ ([], 0) ⟨2, 0, 60⟩ from rfl]
    exact hitScanBlock_miss _ _ _ h1
  have hact : isActive preMotionDemo = true := by decide
  refine ⟨hpost, h1, ?_, ?_, ?_⟩
  · rw [collisionTick_score 800 hact, hscan]
    simp
  · rw [collisionTick_bullets 800 hact, hscan]
    simp
  · rw [collisionTick_blocks 800 hact, hscan]
    have hkept : blockKept 800 []
        (moveBlock (fallSpeed preMotionDemo.level) ⟨2, 0, 60⟩) = true := by
      unfold blockKept
      rw [if_neg (by simp), if_neg (fun h => absurd (of_decide_eq_true h) (by
        norm_num [moveBlock, fallSpeed, preMotionDemo, BLOCK_HEIGHT, playerTopY, PLAYER_HEIGHT])),
        decide_eq_true_eq]
      norm_num [moveBlock, fallSpeed, preMotionDemo]
    rw [show preMotionDemo.fallingBlocks.map (moveBlock (fallSpeed preMotionDemo.level))
          = [moveBlock (fallSpeed preMotionDemo.level) ⟨2, 0, 60⟩] from rfl,
      List.filter_cons_of_pos hkept, List.filter_nil]

/-! ### C4: level progression -/

lemma onTilt_level (sw d : Coord) (s : GameState) : (onTilt sw s d).level = s.level := by
  by_cases hact : isActive s = true
  · rw [onTilt_active sw d hact]
  · rw [onTilt_inactive sw d (by simpa using hact)]

lemma onTilt_levelTransition (sw d : Coord) (s : GameState) :
    (onTilt sw s d).levelTransition = s.levelTransition := by
  by_cases hact : isActive s = true
  · rw [onTilt_active sw d hact]
  · rw [onTilt_inactive sw d (by simpa using hact)]

lemma bulletTick_level (s : GameState) : (bulletTick s).level = s.level := by
  by_cases hact : isActive s = true
  · unfold bulletTick
    rw [if_pos hact]
  · rw [bulletTick_inactive (by simpa using hact)]

lemma bulletTick_levelTransition (s : GameState) :
    (bulletTick s).levelTransition = s.levelTransition := by
  by_cases hact : isActive s = true
  · unfold bulletTick
    rw [if_pos hact]
  · rw [bulletTick_inactive (by simpa using hact)]

lemma spawnTick_level (sw : Coord) (t : ℕ) (rnd : Coord) (s : GameState) :
    (spawnTick sw s t rnd).level = s.level := by
  by_cases hact : isActive s = true
  · unfold spawnTick
    rw [if_pos hact]
  · rw [spawnTick_inactive sw t rnd (by simpa using hact)]

lemma spawnTick_levelTransition (sw : Coord) (t : ℕ) (rnd : Coord) (s : GameState) :
    (spawnTick sw s t rnd).levelTransition = s.levelTransition := by
  by_cases hact : isActive s = true
  · unfold spawnTick
    rw [if_pos hact]
  · rw [spawnTick_inactive sw t rnd (by simpa using hact)]

lemma handleBullets_level (sh : Coord) (t : ℕ) (s : GameState) :
    (handleBullets sh s t).level = s.level := by
  by_cases hact : isActive s = true
  · rw [handleBullets_active sh t hact]
  · rw [handleBullets_inactive sh t (by simpa using hact)]

lemma handleBullets_levelTransition (sh : Coord) (t : ℕ) (s : GameState) :
    (handleBullets sh s t).levelTransition = s.levelTransition := by
  by_cases hact : isActive s = true
  · rw [handleBullets_active sh t hact]
  · rw [handleBullets_inactive sh t (by simpa using hact)]

lemma countdownTick_idle {s : GameState} (h : s.levelTransition = false) :
    countdownTick s = s := by
  unfold countdownTick
  rw [if_neg (by rw [h]; exact Bool.noConfusion)]

lemma countdownTick_complete {s : GameState} (h : s.levelTransition = true)
    (hc : s.countdown ≤ 1) :
    countdownTick s =
      { s with level := 2, levelTransition := false,
               fallingBlocks := [], bullets := [], countdown := 10 } := by
  unfold countdownTick
  rw [if_pos h, if_pos (show s.countdown - 1 ≤ 0 by omega)]

lemma countdownTick_decrement {s : GameState} (h : s.levelTransition = true)
    (hc : 1 < s.countdown) :
    countdownTick s = { s with countdown := s.countdown - 1 } := by
  unfold countdownTick
  rw [if_pos h, if_neg (show ¬(s.countdown - 1 ≤ 0) by omega)]

/-- The level transition starts on a step exactly when a collision tick in
Playing state at level 1 lifts the score to at least 50. -/
lemma step_flip_iff (sw sh : Coord) (s : GameState) (e : Event)
    (hnt : s.levelTransition = false) :
    ((step sw sh s e).levelTransition = true ↔
      e = Event.collision ∧ isActive s = true ∧
      0 < (hitScan s.bullets s.fallingBlocks).2 ∧
      50 ≤ s.score + (hitScan s.bullets s.fallingBlocks).2 * 10 ∧
      s.level = 1) := by
  cases e with
  | tilt d =>
    rw [show step sw sh s (Event.tilt d) = onTilt sw s d from rfl,
      onTilt_levelTransition, hnt]
    simp
  | bulletMotion =>
    rw [show step sw sh s Event.bulletMotion = bulletTick s from rfl,
      bulletTick_levelTransition, hnt]
    simp
  | spawn t r =>
    rw [show step sw sh s (Event.spawn t r) = spawnTick sw s t r from rfl,
      spawnTick_levelTransition, hnt]
    simp
  | collision =>
    by_cases hact : isActive s = true
    · rw [show step sw sh s Event.collision = collisionTick sh s from rfl,
        collisionTick_levelTransition sh hact, hnt]
      simp [hact, and_assoc]
    · rw [show step sw sh s Event.collision = collisionTick sh s from rfl,
        collisionTick_inactive sh (by simpa using hact), hnt]
      simp [hact]
  | countdownStep =>
    rw [show step sw sh s Event.countdownStep = countdownTick s from rfl,
      countdownTick_idle hnt, hnt]
    simp
  | fire t =>
    rw [show step sw sh s (Event.fire t) = handleBullets sh s t from rfl,
      handleBullets_levelTransition, hnt]
    simp
  | reset =>
    rw [show step sw sh s Event.reset = resetGame sw s from rfl]
    simp [resetGame]

/-- When the transition starts, the countdown is (re)set to 10. -/
lemma step_flip_countdown (sw sh : Coord) (s : GameState) (e : Event)
    (hnt : s.levelTransition = false)
    (hflip : (step sw sh s e).levelTransition = true) :
    (step sw sh s e).countdown = 10 := by
  obtain ⟨he, hact, hpos, hscore, hlvl⟩ := (step_flip_iff sw sh s e hnt).mp hflip
  subst he
  have hcond : (decide (0 < (hitScan s.bullets s.fallingBlocks).2) &&
      decide (50 ≤ s.score + (hitScan s.bullets s.fallingBlocks).2 * 10) &&
      decide (s.level = 1) && !s.levelTransition) = true := by
    rw [hnt]
    simp [hpos, hscore, hlvl]
  rw [show step sw sh s Event.collision = collisionTick sh s from rfl,
    collisionTick_countdown sh hact, if_pos hcond]

/-- Once the transition has started (or completed), the session can never
start another one (absent a reset): either the transition flag is up, or the
level has left 1. -/
def transitioned (s : GameState) : Prop :=
  s.levelTransition = true ∨ s.level ≠ 1

lemma transitioned_step (sw sh : Coord) (s : GameState) (e : Event)
    (hne : e ≠ Event.reset) (ht : transitioned s) :
    transitioned (step sw sh s e) := by
  rcases ht with ht | ht
  · have hact : isActive s = false := by
      unfold isActive
      rw [ht]
      simp
    cases e with
    | tilt d =>
      rw [show step sw sh s (Event.tilt d) = onTilt sw s d from rfl,
        onTilt_inactive sw d hact]
      exact Or.inl ht
    | bulletMotion =>
      rw [show step sw sh s Event.bulletMotion = bulletTick s from rfl,
        bulletTick_inactive hact]
      exact Or.inl ht
    | spawn t r =>
      rw [show step sw sh s (Event.spawn t r) = spawnTick sw s t r from rfl,
        spawnTick_inactive sw t r hact]
      exact Or.inl ht
    | collision =>
      rw [show step sw sh s Event.collision = collisionTick sh s from rfl,
        collisionTick_inactive sh hact]
      exact Or.inl ht
    | countdownStep =>
      by_cases hc : s.countdown ≤ 1
      · rw [show step sw sh s Event.countdownStep = countdownTick s from rfl,
          countdownTick_complete ht hc]
        exact Or.inr (by simp)
      · rw [show step sw sh s Event.countdownStep = countdownTick s from rfl,
          countdownTick_decrement ht (by omega)]
        exact Or.inl ht
    | fire t =>
      rw [show step sw sh s (Event.fire t) = handleBullets sh s t from rfl,
        handleBullets_inactive sh t hact]
      exact Or.inl ht
    | reset => exact absurd rfl hne
  · cases e with
    | tilt d =>
      refine Or.inr ?_
      rw [show step sw sh s (Event.tilt d) = onTilt sw s d from rfl, onTilt_level]
      exact ht
    | bulletMotion =>
      refine Or.inr ?_
      rw [show step sw sh s Event.bulletMotion = bulletTick s from rfl, bulletTick_level]
      exact ht
    | spawn t r =>
      refine Or.inr ?_
      rw [show step sw sh s (Event.spawn t r) = spawnTick sw s t r from rfl,
        spawnTick_level]
      exact ht
    | collision =>
      refine Or.inr ?_
      rw [show step sw sh s Event.collision = collisionTick sh s from rfl,
        collisionTick_level]
      exact ht
    | countdownStep =>
      by_cases htr : s.levelTransition = true
      · by_cases hc : s.countdown ≤ 1
        · rw [show step sw sh s Event.countdownStep = countdownTick s from rfl,
            countdownTick_complete htr hc]
          exact Or.inr (by simp)
        · rw [show step sw sh s Event.countdownStep = countdownTick s from rfl,
            countdownTick_decrement htr (by omega)]
          exact Or.inr ht
      · rw [show step sw sh s Event.countdownStep = countdownTick s from rfl,
          countdownTick_idle (by simpa using htr)]
        exact Or.inr ht
    | fire t =>
      refine Or.inr ?_
      rw [show step sw sh s (Event.fire t) = handleBullets sh s t from rfl,
        handleBullets_level]
      exact ht
    | reset => exact absurd rfl hne

/-- Number of steps of a trace on which the level transition starts. -/
def activationCount (sw sh : Coord) : GameState → List Event → ℕ
  | _, [] => 0
  | s, e :: es =>
      (if s.levelTransition = false ∧ (step sw sh s e).levelTransition = true
        then 1 else 0)
      + activationCount sw sh (step sw sh s e) es

lemma activationCount_zero (sw sh : Coord) :
    ∀ (tr : List Event) (s : GameState), Event.reset ∉ tr → transitioned s →
      activationCount sw sh s tr = 0 := by
  intro tr
  induction tr with
  | nil => intro s _ _; rfl
  | cons e es ih =>
    intro s hn ht
    have hne : e ≠ Event.reset := fun h => hn (h ▸ List.mem_cons_self e es)
    have hnes : Event.reset ∉ es := fun h => hn (List.mem_cons_of_mem _ h)
    rw [show activationCount sw sh s (e :: es)
          = (if s.levelTransition = false ∧ (step sw sh s e).levelTransition = true
              then 1 else 0) + activationCount sw sh (step sw sh s e) es from rfl,
      ih (step sw sh s e) hnes (transitioned_step sw sh s e hne ht), if_neg ?_]
    · rcases ht with ht | ht
      · rintro ⟨hfalse, -⟩
        rw [ht] at hfalse
        exact Bool.noConfusion hfalse
      · rintro ⟨hfalse, hflip⟩
        exact ht ((step_flip_iff sw sh s e hfalse).mp hflip).2.2.2.2

lemma activationCount_le_one (sw sh : Coord) :
    ∀ (tr : List Event) (s : GameState), Event.reset ∉ tr →
      activationCount sw sh s tr ≤ 1 := by
  intro tr
  induction tr with
  | nil => intro s _; exact Nat.zero_le 1
  | cons e es ih =>
    intro s hn
    have hnes : Event.reset ∉ es := fun h => hn (List.mem_cons_of_mem _ h)
    rw [show activationCount sw sh s (e :: es)
          = (if s.levelTransition = false ∧ (step sw sh s e).levelTransition = true
              then 1 else 0) + activationCount sw sh (step sw sh s e) es from rfl]
    by_cases hflip : s.levelTransition = false ∧ (step sw sh s e).levelTransition = true
    · rw [if_pos hflip,
        activationCount_zero sw sh es (step sw sh s e) hnes (Or.inl hflip.2)]
    · rw [if_neg hflip]
      simpa using ih (step sw sh s e) hnes

/-- C4: the level transition starts exactly when a collision tick first lifts
the score to ≥ 50 at level 1 with no transition active (countdown then 10);
while active, each countdown step decrements, and the step that would reach 0
instead sets level 2, clears both entity lists, resets the countdown to 10
and resumes play; and any reset-free event trace starts at most one
transition. -/
theorem C4_level_transition (sw sh : Coord) :
    (∀ (s : GameState) (e : Event), s.levelTransition = false →
      ((step sw sh s e).levelTransition = true ↔
        e = Event.collision ∧ isActive s = true ∧
        0 < (hitScan s.bullets s.fallingBlocks).2 ∧
        50 ≤ s.score + (hitScan s.bullets s.fallingBlocks).2 * 10 ∧
        s.level = 1))
    ∧ (∀ (s : GameState) (e : Event), s.levelTransition = false →
        (step sw sh s e).levelTransition = true → (step sw sh s e).countdown = 10)
    ∧ (∀ s : GameState, s.levelTransition = true → 1 < s.countdown →
        step sw sh s Event.countdownStep = { s with countdown := s.countdown - 1 })
    ∧ (∀ s : GameState, s.levelTransition = true → s.countdown ≤ 1 →
        step sw sh s Event.countdownStep =
          { s with level := 2, levelTransition := false,
                   fallingBlocks := [], bullets := [], countdown := 10 })
    ∧ (∀ (s : GameState) (tr : List Event), Event.reset ∉ tr →
        activationCount sw sh s tr ≤ 1) :=
  ⟨fun s e h => step_flip_iff sw sh s e h,
   fun s e h hf => step_flip_countdown sw sh s e h hf,
   fun _ h hc => countdownTick_decrement h hc,
   fun _ h hc => countdownTick_complete h hc,
   fun s tr h => activationCount_le_one sw sh tr s h⟩

/-- One hit away from level-up: score 40, one bullet overlapping the block. -/
def demoAlmost : GameState := { demoHit with score := 40 }

/-- Mid-transition state, countdown 5. -/
def demoTransit5 : GameState := { demoPlaying with levelTransition := true, countdown := 5 }

/-- Mid-transition state, countdown 1 (the step that completes). -/
def demoTransit1 : GameState := { demoPlaying with levelTransition := true, countdown := 1 }

/-- Witness for C4: the activation iff and countdown reset at a concrete
about-to-level-up state, one concrete decrement, one concrete completion, and
a concrete reset-free trace with at most one activation. -/
theorem C4_level_transition_witness :
    ((step 400 800 demoAlmost Event.collision).levelTransition = true ↔
      Event.collision = Event.collision ∧ isActive demoAlmost = true ∧
      0 < (hitScan demoAlmost.bullets demoAlmost.fallingBlocks).2 ∧
      50 ≤ demoAlmost.score + (hitScan demoAlmost.bullets demoAlmost.fallingBlocks).2 * 10 ∧
      demoAlmost.level = 1)
    ∧ (step 400 800 demoAlmost Event.collision).countdown = 10
    ∧ step 400 800 demoTransit5 Event.countdownStep
        = { demoTransit5 with countdown := demoTransit5.countdown - 1 }
    ∧ step 400 800 demoTransit1 Event.countdownStep
        = { demoTransit1 with
              level := 2
              levelTransition := false
              fallingBlocks := []
              bullets := []
              countdown := 10 }
    ∧ activationCount 400 800 demoAlmost [Event.collision, Event.collision] ≤ 1 := by
  have hh : bulletHitsBlock ⟨1, 0, 100⟩ ⟨2, 0, 90⟩ = true := by
    rw [bulletHitsBlock_iff]
    norm_num
  have hscan : hitScan demoAlmost.bullets demoAlmost.fallingBlocks = ([2], 1) := by
    rw [show hitScan demoAlmost.bullets demoAlmost.fallingBlocks
          = hitScanBlock ⟨1, 0, 100⟩ ([], 0) ⟨2, 0, 90⟩ from rfl,
      hitScanBlock_new ⟨1, 0, 100⟩ ⟨2, 0, 90⟩ ([], 0) rfl hh]
  have hflip : (step 400 800 demoAlmost Event.collision).levelTransition = true :=
    ((C4_level_transition 400 800).1 demoAlmost Event.collision rfl).mpr
      ⟨rfl, by decide, by rw [hscan]; decide, by rw [hscan]; decide, rfl⟩
  refine ⟨(C4_level_transition 400 800).1 demoAlmost Event.collision rfl,
    (C4_level_transition 400 800).2.1 demoAlmost Event.collision rfl hflip,
    (C4_level_transition 400 800).2.2.1 demoTransit5 rfl (by decide),
    (C4_level_transition 400 800).2.2.2.1 demoTransit1 rfl (by decide),
    (C4_level_transition 400 800).2.2.2.2 demoAlmost
      [Event.collision, Event.collision] (by decide)⟩

/-! ### C6: uniqueness of entity ids -/

/-- All entity ids currently alive (projectiles then blocks). -/
def allIds (s : GameState) : List ℕ :=
  s.bullets.map Entity.id ++ s.fallingBlocks.map Entity.id

/-- The `Date.now()` samples consumed by the entity-creating events of a
trace, in order. -/
def creationTimes : List Event → List ℕ
  | [] => []
  | Event.spawn t _ :: es => t :: creationTimes es
  | Event.fire t :: es => t :: creationTimes es
  | _ :: es => creationTimes es

lemma creationTimes_cons (e : Event) (es : List Event) :
    creationTimes (e :: es) = creationTimes [e] ++ creationTimes es := by
  cases e <;> rfl

lemma bulletTick_active {s : GameState} (hact : isActive s = true) :
    bulletTick s =
      { s with bullets := (s.bullets.map (fun b => { b with y := b.y - 15 })).filter (fun b => decide (b.y + 20 > 0)) } := by
  unfold bulletTick
  rw [if_pos hact]

lemma spawnTick_active {s : GameState} (sw : Coord) (t : ℕ) (rnd : Coord)
    (hact : isActive s = true) :
    spawnTick sw s t rnd =
      { s with fallingBlocks := s.fallingBlocks ++ [{ id := t, x := rnd * (sw - PLAYER_WIDTH), y := -50 }] } := by
  unfold spawnTick
  rw [if_pos hact]

lemma ids_filter_map_sublist (l : List Entity) (f : Entity → Entity)
    (hf : ∀ e, (f e).id = e.id) (p : Entity → Bool) :
    (((l.map f).filter p).map Entity.id).Sublist (l.map Entity.id) := by
  have h1 : (((l.map f).filter p).map Entity.id).Sublist ((l.map f).map Entity.id) :=
    List.Sublist.map Entity.id (List.filter_sublist _)
  have h2 : (l.map f).map Entity.id = l.map Entity.id := by
    rw [List.map_map]
    exact List.map_eq_map_iff.mpr (fun e _ => hf e)
  rw [h2] at h1
  exact h1

lemma perm_append_snoc {α : Type} (a : α) (l1 l2 : List α) :
    (l1 ++ (l2 ++ [a])).Perm (a :: (l1 ++ l2)) := by
  have h1 : l1 ++ (l2 ++ [a]) = (l1 ++ l2) ++ [a] := (List.append_assoc _ _ _).symm
  rw [h1]
  exact List.perm_append_comm

lemma perm_snoc_append {α : Type} (a : α) (l1 l2 : List α) :
    ((l1 ++ [a]) ++ l2).Perm (a :: (l1 ++ l2)) :=
  (List.perm_append_right_iff _).mpr List.perm_append_comm

/-- Each step either only removes ids, or adds exactly the event's
timestamp. -/
lemma step_ids_rel (sw sh : Coord) (s : GameState) (e : Event) :
    (allIds (step sw sh s e)).Sublist (allIds s)
    ∨ ∃ t : ℕ, t ∈ creationTimes [e] ∧ (allIds (step sw sh s e)).Perm (t :: allIds s) := by
  cases e with
  | tilt d =>
    refine Or.inl ?_
    have h : allIds (onTilt sw s d) = allIds s := by
      by_cases hact : isActive s = true
      · rw [onTilt_active sw d hact]
        rfl
      · rw [onTilt_inactive sw d (by simpa using hact)]
    rw [show step sw sh s (Event.tilt d) = onTilt sw s d from rfl, h]
  | bulletMotion =>
    refine Or.inl ?_
    rw [show step sw sh s Event.bulletMotion = bulletTick s from rfl]
    by_cases hact : isActive s = true
    · rw [bulletTick_active hact]
      simp only [allIds]
      exact List.Sublist.append
        (ids_filter_map_sublist s.bullets (fun b => { b with y := b.y - 15 })
          (fun e => rfl) (fun b => decide (b.y + 20 > 0)))
        (List.Sublist.refl _)
    · rw [bulletTick_inactive (by simpa using hact)]
  | spawn t r =>
    rw [show step sw sh s (Event.spawn t r) = spawnTick sw s t r from rfl]
    by_cases hact : isActive s = true
    · refine Or.inr ⟨t, by simp [creationTimes], ?_⟩
      rw [spawnTick_active sw t r hact]
      simp only [allIds]
      rw [List.map_append]
      exact perm_append_snoc t (s.bullets.map Entity.id) (s.fallingBlocks.map Entity.id)
    · refine Or.inl ?_
      rw [spawnTick_inactive sw t r (by simpa using hact)]
  | collision =>
    refine Or.inl ?_
    rw [show step sw sh s Event.collision = collisionTick sh s from rfl]
    by_cases hact : isActive s = true
    · have hb : ((collisionTick sh s).bullets.map Entity.id).Sublist
          (s.bullets.map Entity.id) := by
        rw [collisionTick_bullets sh hact]
        by_cases hp : 0 < (hitScan s.bullets s.fallingBlocks).2
        · rw [if_pos hp]
          exact List.Sublist.map Entity.id (List.filter_sublist _)
        · rw [if_neg hp]
      have hk : ((collisionTick sh s).fallingBlocks.map Entity.id).Sublist
          (s.fallingBlocks.map Entity.id) := by
        rw [collisionTick_blocks sh hact]
        exact ids_filter_map_sublist s.fallingBlocks (moveBlock (fallSpeed s.level))
          (fun e => rfl) (blockKept sh (hitScan s.bullets s.fallingBlocks).1)
      exact List.Sublist.append hb hk
    · rw [collisionTick_inactive sh (by simpa using hact)]
  | countdownStep =>
    refine Or.inl ?_
    rw [show step sw sh s Event.countdownStep = countdownTick s from rfl]
    by_cases htr : s.levelTransition = true
    · by_cases hc : s.countdown ≤ 1
      · rw [countdownTick_complete htr hc]
        exact List.nil_sublist _
      · rw [countdownTick_decrement htr (by omega)]
        exact List.Sublist.refl _
    · rw [countdownTick_idle (by simpa using htr)]
  | fire t =>
    rw [show step sw sh s (Event.fire t) = handleBullets sh s t from rfl]
    by_cases hact : isActive s = true
    · refine Or.inr ⟨t, by simp [creationTimes], ?_⟩
      rw [handleBullets_active sh t hact]
      simp only [allIds]
      rw [List.map_append]
      exact perm_snoc_append t (s.bullets.map Entity.id) (s.fallingBlocks.map Entity.id)
    · refine Or.inl ?_
      rw [handleBullets_inactive sh t (by simpa using hact)]
  | reset =>
    refine Or.inl ?_
    rw [show step sw sh s Event.reset = resetGame sw s from rfl]
    exact List.nil_sublist _

/-- Subset and no-duplicates facts for one step, from `step_ids_rel`. -/
lemma step_ids_facts (sw sh : Coord) (s : GameState) (e : Event)
    (h1 : (allIds s).Nodup) (hfresh : ∀ t ∈ creationTimes [e], t ∉ allIds s) :
    (allIds (step sw sh s e)).Nodup ∧
      ∀ x ∈ allIds (step sw sh s e), x ∈ creationTimes [e] ∨ x ∈ allIds s := by
  rcases step_ids_rel sw sh s e with hsub | ⟨t, ht, hperm⟩
  · exact ⟨hsub.nodup h1, fun x hx => Or.inr (hsub.subset hx)⟩
  · constructor
    · rw [hperm.nodup_iff]
      exact List.nodup_cons.mpr ⟨hfresh t ht, h1⟩
    · intro x hx
      rcases List.mem_cons.mp (hperm.subset hx) with hx2 | hx2
      · exact Or.inl (hx2 ▸ ht)
      · exact Or.inr hx2

lemma run_ids (sw sh : Coord) :
    ∀ (tr : List Event) (s : GameState),
      (allIds s ++ creationTimes tr).Nodup →
      (allIds (run sw sh s tr)).Nodup ∧
        ∀ x ∈ allIds (run sw sh s tr), x ∈ allIds s ++ creationTimes tr := by
  intro tr
  induction tr with
  | nil =>
    intro s h
    rw [show run sw sh s [] = s from rfl]
    rw [show creationTimes ([] : List Event) = [] from rfl, List.append_nil] at h
    refine ⟨h, fun x hx => ?_⟩
    rw [show creationTimes ([] : List Event) = [] from rfl, List.append_nil]
    exact hx
  | cons e es ih =>
    intro s h
    rw [creationTimes_cons] at h
    obtain ⟨h1, h23, hdisj⟩ := List.nodup_append.mp h
    obtain ⟨h2, h3, hdisj23⟩ := List.nodup_append.mp h23
    have hfresh : ∀ t ∈ creationTimes [e], t ∉ allIds s :=
      fun t ht hmem => hdisj hmem (List.mem_append_left _ ht)
    obtain ⟨hnods2, hsub⟩ := step_ids_facts sw sh s e h1 hfresh
    have hdisj2 : (allIds (step sw sh s e)).Disjoint (creationTimes es) := by
      intro a ha hmem
      rcases hsub a ha with hc | hc
      · exact hdisj23 hc hmem
      · exact hdisj hc (List.mem_append_right _ hmem)
    have hrec : (allIds (step sw sh s e) ++ creationTimes es).Nodup :=
      List.nodup_append.mpr ⟨hnods2, h3, hdisj2⟩
    obtain ⟨ha, hb⟩ := ih (step sw sh s e) hrec
    refine ⟨ha, fun x hx => ?_⟩
    rcases List.mem_append.mp (hb x hx) with hx2 | hx2
    · rcases hsub x hx2 with hc | hc
      · refine List.mem_append_right _ ?_
        rw [creationTimes_cons]
        exact List.mem_append_left _ hc
      · exact List.mem_append_left _ hc
    · refine List.mem_append_right _ ?_
      rw [creationTimes_cons]
      exact List.mem_append_right _ hx2

/-- C6 (amended): provided all `Date.now()` samples of the entity-creating
events are pairwise distinct, every state along the session has
duplicate-free entity ids — across the projectile and block sequences
together (hence within each sequence). -/
theorem C6_unique_ids (sw sh : Coord) (tr : List Event)
    (h : (creationTimes tr).Nodup) :
    (allIds (run sw sh (initState sw) tr)).Nodup :=
  (run_ids sw sh tr (initState sw) (by simpa using h)).1

/-- Witness for C6: a reset, two fires and a spawn with distinct
timestamps. -/
theorem C6_unique_ids_witness :
    (allIds (run 400 800 (initState 400)
      [Event.reset, Event.fire 1, Event.spawn 2 0, Event.fire 3])).Nodup :=
  C6_unique_ids 400 800 [Event.reset, Event.fire 1, Event.spawn 2 0, Event.fire 3]
    (by decide)

/-- Counterexample to C6 as stated: two fire actions in the same
`Date.now()` millisecond yield two projectiles with the same id, so ids are
not unconditionally unique. -/
theorem C6_unique_ids_counterexample :
    ¬ (allIds (run 400 800 (initState 400)
        [Event.reset, Event.fire 1, Event.fire 1])).Nodup := by
  decide

/-! ### C10: the countdown stays in [1, 10] -/

lemma onTilt_countdown (sw d : Coord) (s : GameState) :
    (onTilt sw s d).countdown = s.countdown := by
  by_cases hact : isActive s = true
  · rw [onTilt_active sw d hact]
  · rw [onTilt_inactive sw d (by simpa using hact)]

lemma bulletTick_countdown (s : GameState) :
    (bulletTick s).countdown = s.countdown := by
  by_cases hact : isActive s = true
  · rw [bulletTick_active hact]
  · rw [bulletTick_inactive (by simpa using hact)]

lemma spawnTick_countdown (sw : Coord) (t : ℕ) (rnd : Coord) (s : GameState) :
    (spawnTick sw s t rnd).countdown = s.countdown := by
  by_cases hact : isActive s = true
  · rw [spawnTick_active sw t rnd hact]
  · rw [spawnTick_inactive sw t rnd (by simpa using hact)]

lemma handleBullets_countdown (sh : Coord) (t : ℕ) (s : GameState) :
    (handleBullets sh s t).countdown = s.countdown := by
  by_cases hact : isActive s = true
  · rw [handleBullets_active sh t hact]
  · rw [handleBullets_inactive sh t (by simpa using hact)]

/-- Reachable-state invariant: the countdown is 10 outside a transition and
within [1, 10] during one. -/
lemma countdown_invariant (sw sh : Coord) :
    ∀ s : GameState, Reachable sw sh s →
      ((s.levelTransition = true → 1 ≤ s.countdown ∧ s.countdown ≤ 10)
        ∧ (s.levelTransition = false → s.countdown = 10)) := by
  intro s hr
  induction hr with
  | init => exact ⟨fun h => Bool.noConfusion h, fun _ => rfl⟩
  | @next s1 e hr ih =>
    obtain ⟨ih1, ih2⟩ := ih
    cases e with
    | tilt d =>
      rw [show step sw sh s1 (Event.tilt d) = onTilt sw s1 d from rfl]
      rw [onTilt_countdown, onTilt_levelTransition]
      exact ⟨ih1, ih2⟩
    | bulletMotion =>
      rw [show step sw sh s1 Event.bulletMotion = bulletTick s1 from rfl]
      rw [bulletTick_countdown, bulletTick_levelTransition]
      exact ⟨ih1, ih2⟩
    | spawn t r =>
      rw [show step sw sh s1 (Event.spawn t r) = spawnTick sw s1 t r from rfl]
      rw [spawnTick_countdown, spawnTick_levelTransition]
      exact ⟨ih1, ih2⟩
    | collision =>
      rw [show step sw sh s1 Event.collision = collisionTick sh s1 from rfl]
      by_cases hact : isActive s1 = true
      · have hc10 : s1.countdown = 10 := ih2 (isActive_parts hact).2.2
        have hcd : (collisionTick sh s1).countdown = 10 := by
          rw [collisionTick_countdown sh hact]
          by_cases hcond : (decide (0 < (hitScan s1.bullets s1.fallingBlocks).2) &&
              decide (50 ≤ s1.score + (hitScan s1.bullets s1.fallingBlocks).2 * 10) &&
              decide (s1.level = 1) && !s1.levelTransition) = true
          · rw [if_pos hcond]
          · rw [if_neg hcond]
            exact hc10
        rw [hcd]
        exact ⟨fun _ => by norm_num, fun _ => rfl⟩
      · rw [collisionTick_inactive sh (by simpa using hact)]
        exact ⟨ih1, ih2⟩
    | countdownStep =>
      rw [show step sw sh s1 Event.countdownStep = countdownTick s1 from rfl]
      by_cases htr : s1.levelTransition = true
      · by_cases hc : s1.countdown ≤ 1
        · rw [countdownTick_complete htr hc]
          exact ⟨fun h => Bool.noConfusion h, fun _ => rfl⟩
        · rw [countdownTick_decrement htr (by omega)]
          constructor
          · intro _
            show 1 ≤ s1.countdown - 1 ∧ s1.countdown - 1 ≤ 10
            obtain ⟨hl, hu⟩ := ih1 htr
            omega
          · intro h
            rw [show ({ s1 with countdown := s1.countdown - 1 } :
                GameState).levelTransition = s1.levelTransition from rfl, htr] at h
            exact Bool.noConfusion h
      · rw [countdownTick_idle (by simpa using htr)]
        exact ⟨ih1, ih2⟩
    | fire t =>
      rw [show step sw sh s1 (Event.fire t) = handleBullets sh s1 t from rfl]
      rw [handleBullets_countdown, handleBullets_levelTransition]
      exact ⟨ih1, ih2⟩
    | reset =>
      rw [show step sw sh s1 Event.reset = resetGame sw s1 from rfl]
      exact ⟨fun h => Bool.noConfusion h, fun _ => rfl⟩

/-- C10: in every reachable state the countdown is an integer in [1, 10]
while a transition is active and exactly 10 otherwise; and the countdown
step taken at countdown 1 completes the transition (level 2) and resets the
countdown to 10 instead of showing 0. -/
theorem C10_countdown_range (sw sh : Coord) (s : GameState)
    (hr : Reachable sw sh s) :
    (s.levelTransition = true → 1 ≤ s.countdown ∧ s.countdown ≤ 10)
    ∧ (s.levelTransition = false → s.countdown = 10)
    ∧ (s.levelTransition = true → s.countdown = 1 →
        (step sw sh s Event.countdownStep).levelTransition = false
        ∧ (step sw sh s Event.countdownStep).countdown = 10
        ∧ (step sw sh s Event.countdownStep).level = 2) := by
  obtain ⟨h1, h2⟩ := countdown_invariant sw sh s hr
  refine ⟨h1, h2, fun ht hc => ?_⟩
  rw [show step sw sh s Event.countdownStep = countdownTick s from rfl,
    countdownTick_complete ht (by omega)]
  exact ⟨rfl, rfl, rfl⟩

/-- Witness for C10 at the (reachable) initial state. -/
theorem C10_countdown_range_witness :
    ((initState 400).levelTransition = true →
      1 ≤ (initState 400).countdown ∧ (initState 400).countdown ≤ 10)
    ∧ ((initState 400).levelTransition = false → (initState 400).countdown = 10)
    ∧ ((initState 400).levelTransition = true → (initState 400).countdown = 1 →
        (step 400 800 (initState 400) Event.countdownStep).levelTransition = false
        ∧ (step 400 800 (initState 400) Event.countdownStep).countdown = 10
        ∧ (step 400 800 (initState 400) Event.countdownStep).level = 2) :=
  C10_countdown_range 400 800 (initState 400) Reachable.init

end TiltGame
